import Mathlib

/-!
Verification of the Battleship-Plus core: the battlefield/ship domain model
(`src/battleship/common/battlefield/Battlefield.py`,
`src/battleship/common/battlefield/battleship/Battleship.py`), the message
codec, and the network session layer (`src/battleship/common/network.py`).
Python functions are embedded shallowly: mutation becomes explicit state
passing, a Python function that can raise `IndexError` or fall off the end
returns `Option`, and Python lists become Lean lists.
-/

/-- Move direction (from `common.constants.Direction`, referenced by
`Battlefield.move` and `Ship.move`). -/
inductive Direction where
  | up
  | down
  | left
  | right
deriving DecidableEq, Repr

/-- Modelled from the spec: `Ship.py` is not under src/ (only its subclass
`Battleship.py` and its caller `Battlefield.py` are). Attributes follow the
spec's data model (identifier, ship-type tag, origin position, extent in each
axis, per-cell damage state) and the `Ship.__init__(ship_id, ship_type, x_pos,
y_pos, x_length, y_length)` signature used by `Battleship.py`. `damage` is the
list of cells recorded as hit. -/
structure Ship where
  _ship_id : Nat
  _ship_type : String
  _x_pos : Int
  _y_pos : Int
  _x_length : Nat
  _y_length : Nat
  damage : List (Int × Int)
deriving DecidableEq, Repr

/-- Modelled from the spec: a ship's occupied cells are fully determined by
origin plus type-specific extents, a rectangle of `_x_length` by `_y_length`
cells anchored at `(_x_pos, _y_pos)`. -/
def Ship.occupies (s : Ship) (x y : Int) : Bool :=
  decide (s._x_pos ≤ x) && decide (x < s._x_pos + s._x_length) &&
  decide (s._y_pos ≤ y) && decide (y < s._y_pos + s._y_length)

/-- Modelled from the spec: `strikeAtPosition(x, y)` returns true and records a
hit if `(x, y)` is one of the ship's currently-occupied cells, false otherwise;
a repeated strike on an already-hit cell re-reports true without double
counting. -/
def Ship.strikeAtPosition (s : Ship) (x y : Int) : Bool × Ship :=
  if s.occupies x y then
    (true, { s with damage := if (x, y) ∈ s.damage then s.damage else (x, y) :: s.damage })
  else
    (false, s)

/-- Unit translation vector of a direction. -/
def Direction.delta : Direction → Int × Int
  | .up => (0, -1)
  | .down => (0, 1)
  | .left => (-1, 0)
  | .right => (1, 0)

/-- The ship translated one cell in direction `d` (position only; extents and
damage unchanged). -/
def Ship.translate (s : Ship) (d : Direction) : Ship :=
  { s with _x_pos := s._x_pos + d.delta.1, _y_pos := s._y_pos + d.delta.2 }

/-- All cells of the ship's footprint lie inside the square battlefield of the
given side length. -/
def Ship.inBounds (s : Ship) (length : Nat) : Bool :=
  decide (0 ≤ s._x_pos) && decide (s._x_pos + s._x_length ≤ (length : Int)) &&
  decide (0 ≤ s._y_pos) && decide (s._y_pos + s._y_length ≤ (length : Int))

/-- Modelled from the spec: `move(direction)` attempts to translate the ship
one cell in the given direction; it commits the move and returns true if the
new position keeps all occupied cells within the battlefield bounds, and
returns false with no mutation otherwise. The battlefield side length, which
the missing `Ship.py` consults for the bounds check, is passed explicitly. -/
def Ship.move (s : Ship) (length : Nat) (d : Direction) : Bool × Ship :=
  let t := s.translate d
  if t.inBounds length then (true, t) else (false, s)

/-- `Battleship.__init__` from `Battleship.py`: a `Ship` with type tag
"Battleship" and a 5 by 1 footprint. -/
def Battleship (ship_id : Nat) (x_pos y_pos : Int) : Ship :=
  { _ship_id := ship_id, _ship_type := "Battleship", _x_pos := x_pos, _y_pos := y_pos,
    _x_length := 5, _y_length := 1, damage := [] }

/-- One player's battlefield (`Battlefield.py`): the owned ships and the two
tracking grids, embedded as Python builds them (lists of lists of ints). -/
structure Battlefield where
  _ships : List Ship
  _my_battlefield : List (List Nat)
  _enemy_battlefield : List (List Nat)
deriving DecidableEq, Repr

/-- `Battlefield.__init__(length, ships)` (Battlefield.py lines 10-16): stores
the ships and sets both grids to the Python literal `[[length], [length]]`, a
two-element list of singleton lists each holding the number `length`. -/
def Battlefield.init (length : Nat) (ships : List Ship) : Battlefield :=
  { _ships := ships,
    _my_battlefield := [[length], [length]],
    _enemy_battlefield := [[length], [length]] }

/-- The ship-list traversal of `Battlefield.move` (lines 19-25): on the first
ship whose `_ship_id` matches, return that ship's `move` result (`some r`) with
the ship updated in place; if no ship matches, the Python loop falls through
and the method implicitly returns `None` (`none` here) with the list
unchanged. -/
def moveShips (length : Nat) (ship_id : Nat) (d : Direction) : List Ship → Option Bool × List Ship
  | [] => (none, [])
  | s :: rest =>
    if s._ship_id = ship_id then
      ((s.move length d).1, (s.move length d).2 :: rest)
    else
      ((moveShips length ship_id d rest).1, s :: (moveShips length ship_id d rest).2)

/-- `Battlefield.move(ship_id, direction)`: delegates to the ship-list
traversal. The battlefield side length used by the modelled `Ship.move` bounds
check is passed explicitly. -/
def Battlefield.move (b : Battlefield) (length : Nat) (ship_id : Nat) (d : Direction) :
    Option Bool × Battlefield :=
  ((moveShips length ship_id d b._ships).1,
   { b with _ships := (moveShips length ship_id d b._ships).2 })

/-- The ship-list traversal of `Battlefield.strike` (lines 28-32): call each
ship's `strikeAtPosition` in order, stop with true at the first hit (committing
that ship's updated damage), return false after the loop otherwise. A miss
leaves the tested ship unchanged, so only the first hit ship is replaced. -/
def strikeShips (x y : Int) : List Ship → Bool × List Ship
  | [] => (false, [])
  | s :: rest =>
    if (s.strikeAtPosition x y).1 then
      (true, (s.strikeAtPosition x y).2 :: rest)
    else
      ((strikeShips x y rest).1, s :: (strikeShips x y rest).2)

/-- `Battlefield.strike(x_pos, y_pos)`: delegates to the ship-list traversal. -/
def Battlefield.strike (b : Battlefield) (x y : Int) : Bool × Battlefield :=
  ((strikeShips x y b._ships).1, { b with _ships := (strikeShips x y b._ships).2 })

/-- `Battlefield.shoot(x_pos, y_pos)` (lines 35-48), embedded faithfully: the
guard compares `x_pos * y_pos` with `len(self._enemy_battlefield)`; inside the
guard the cell `self._enemy_battlefield[x_pos][y_pos]` is read, which in Python
raises `IndexError` when an index is out of range (`none` here); cell values
0, 1 and 2 all return `True`, any other value returns `False`; a coordinate
failing the guard returns `False` without reading the grid. -/
def Battlefield.shoot (b : Battlefield) (x_pos y_pos : Nat) : Option Bool :=
  if b._enemy_battlefield.length ≤ x_pos * y_pos then
    match b._enemy_battlefield.get? x_pos with
    | none => none
    | some row =>
      match row.get? y_pos with
      | none => none
      | some v =>
        if v = 0 then some true
        else if v = 1 then some true
        else if v = 2 then some true
        else some false
  else
    some false

/-- Modelled from the spec: `protocol.py` (the Message Codec: `ProtocolMessage`,
`parse_from_stream`) is not under src/, only its importer `network.py` is. A
protocol message is a kind discriminator plus a kind-specific payload; the
kinds follow the spec's examples (login request, shot coordinate, shot result,
ship placement). -/
inductive ProtocolMessage where
  | login (username : String)
  | shot (x_pos y_pos : Nat)
  | shotResult (hit : Bool)
  | placeShip (ship_id : Nat) (x_pos y_pos : Nat) (horizontal : Bool)
deriving DecidableEq, Repr

/-- Modelled from the spec: self-delimiting string encoding, a length prefix
followed by the character codepoints. -/
def encodeString (s : String) : List Nat :=
  s.length :: s.toList.map Char.toNat

/-- Modelled from the spec: consume one length-prefixed string from the front
of the token stream, returning it with the unconsumed remainder; `none` on a
truncated stream. -/
def decodeString (bytes : List Nat) : Option (String × List Nat) :=
  match bytes with
  | [] => none
  | n :: rest =>
    if n ≤ rest.length then
      some (String.mk ((rest.take n).map Char.ofNat), rest.drop n)
    else
      none

/-- Modelled from the spec: `encode(message)` is a total, deterministic,
self-delimiting encoding — a kind tag followed by the kind's fixed-shape
payload. -/
def ProtocolMessage.encode : ProtocolMessage → List Nat
  | .login u => 0 :: encodeString u
  | .shot x y => [1, x, y]
  | .shotResult hit => [2, if hit then 1 else 0]
  | .placeShip i x y o => [3, i, x, y, if o then 1 else 0]

/-- Modelled from the spec: the codec's decoder consumes one message from the
front of the stream and returns it with the unconsumed remainder; `none` on
malformed or truncated input (the spec's `ProtocolError`). -/
def decodeMessage (bytes : List Nat) : Option (ProtocolMessage × List Nat) :=
  match bytes with
  | 0 :: rest =>
    match decodeString rest with
    | some (u, rest2) => some (.login u, rest2)
    | none => none
  | 1 :: x :: y :: rest => some (.shot x y, rest)
  | 2 :: h :: rest => some (.shotResult (h == 1), rest)
  | 3 :: i :: x :: y :: o :: rest => some (.placeShip i x y (o == 1), rest)
  | _ => none

/-- `BattleshipServerClient.__init__` (network.py lines 42-46) as explicit
state passing on the class counter `next_client_id`: the new client record
receives the current counter value as its id and the counter is incremented.
The counter starts at 1 (line 40) and is never decremented or reset. -/
def BattleshipServerClient_init (next_client_id : Nat) : Nat × Nat :=
  (next_client_id, next_client_id + 1)

/-- The ids handed to `n` successively accepted connections starting from
counter value `c`: each accept runs `BattleshipServerClient_init` on the
current counter. -/
def assignedIds : Nat → Nat → List Nat
  | _, 0 => []
  | c, n + 1 =>
    (BattleshipServerClient_init c).1 :: assignedIds (BattleshipServerClient_init c).2 n

/-- Observable steps of the network layer's registration and connection
lifecycle, in the order the code performs them. -/
inductive NetEvent where
  | taskCreated
  | registryInserted
  | connectedCallback
  | doneCallbackAdded
  | typeErrorRaised
  | taskCompleted
  | disconnectCallback
  | registryRemoved
deriving DecidableEq, Repr

/-- Why a connection's receive loop ended. -/
inductive TermCause where
  | peerClosed
  | localClose
  | decodeError
deriving DecidableEq, Repr

/-- `BattleshipClient.__init__` (network.py lines 10-20): first checks that
`msg_callback` is a coroutine function, raising `TypeError` otherwise, then
only stores fields; no connection work happens in the constructor (the task is
created later in `connect`). Returns the list of events performed and whether
construction succeeded. -/
def clientInitEvents (msg_cb_is_coroutine : Bool) : List NetEvent × Bool :=
  if msg_cb_is_coroutine then ([], true) else ([.typeErrorRaised], false)

/-- `BattleshipServer._accept_client` (network.py lines 62-83), in source
order: create the receive task (line 77), insert the registry entry (line 79),
invoke the client-connected callback (line 80), and only then check that the
returned message callback is a coroutine function (lines 81-82) — raising
`TypeError` there, or registering the done callback (line 83) otherwise. -/
def serverAcceptEvents (msg_cb_is_coroutine : Bool) : List NetEvent :=
  [.taskCreated, .registryInserted, .connectedCallback] ++
    (if msg_cb_is_coroutine then [.doneCallbackAdded] else [.typeErrorRaised])

/-- Full server-side lifecycle of one accepted connection whose receive task
ends with the given cause. The asyncio runtime invokes a task's done callback
exactly once when the task completes, so `internal_client_done` (lines 72-74)
— which fires the external disconnect callback and then deletes the registry
entry — runs exactly once, and only if line 83 registered it. -/
def serverLifecycle (msg_cb_is_coroutine : Bool) (cause : TermCause) : List NetEvent :=
  serverAcceptEvents msg_cb_is_coroutine ++ [.taskCompleted] ++
    (if msg_cb_is_coroutine then [.disconnectCallback, .registryRemoved] else [])

/-- Full client-side lifecycle of one connection after a successful
constructor: `connect` creates the receive task and registers
`_server_closed_connection` as its done callback (lines 25-26), which fires
the closed callback once when the task completes for any cause (lines
31-32). -/
def clientLifecycle (cause : TermCause) : List NetEvent :=
  [.taskCreated, .doneCallbackAdded, .taskCompleted, .disconnectCallback]

/-- When the guard `len(enemy) <= x * y` fails, `shoot` returns `False` from
the final `return False` without reading any grid cell. -/
theorem shoot_small (b : Battlefield) (x y : Nat)
    (h : x * y < b._enemy_battlefield.length) : b.shoot x y = some false := by
  unfold Battlefield.shoot
  rw [if_neg (by omega)]

/-- On a freshly constructed battlefield the enemy grid is `[[len], [len]]`, so
every coordinate passing the guard indexes out of range and `shoot` raises
`IndexError` (`none`). -/
theorem shoot_fresh_oob (len : Nat) (ships : List Ship) (x y : Nat) (h : 2 ≤ x * y) :
    (Battlefield.init len ships).shoot x y = none := by
  have hgrid : (Battlefield.init len ships)._enemy_battlefield = [[len], [len]] := rfl
  unfold Battlefield.shoot
  rw [hgrid]
  rw [if_pos (by simp; omega)]
  rcases x with _ | x
  · simp at h
  · rcases x with _ | x
    · rcases y with _ | y
      · simp at h
      · rcases y with _ | y
        · simp at h
        · simp [List.get?]
    · simp [List.get?]

/-- Claim C7: on a freshly constructed Battlefield the enemy grid has only
valid indices x in \x7b0, 1\x7d with y = 0; `shoot(x, y)` returns `False` for
every coordinate with `x * y < 2` without reading the enemy grid (it returns
`False` for any battlefield whose guard fails, whatever the grid holds), it
raises `IndexError` (`none`) for every coordinate with `x * y >= 2`, and it
never returns `True`. -/
theorem shoot_fresh_spec (len : Nat) (ships : List Ship) (x y : Nat) :
    ((Battlefield.init len ships)._enemy_battlefield.length = 2 ∧
      ∀ row ∈ (Battlefield.init len ships)._enemy_battlefield, row.length = 1) ∧
    (x * y < 2 → (Battlefield.init len ships).shoot x y = some false) ∧
    (2 ≤ x * y → (Battlefield.init len ships).shoot x y = none) ∧
    (∀ b : Battlefield, x * y < b._enemy_battlefield.length → b.shoot x y = some false) ∧
    (Battlefield.init len ships).shoot x y ≠ some true := by
  refine ⟨⟨rfl, ?_⟩, fun h => shoot_small _ x y (by simpa [Battlefield.init] using h),
    fun h => shoot_fresh_oob len ships x y h,
    fun b h => shoot_small b x y h, ?_⟩
  · intro row hrow
    simp only [Battlefield.init, List.mem_cons, List.not_mem_nil, or_false] at hrow
    rcases hrow with rfl | rfl <;> rfl
  · by_cases hxy : x * y < 2
    · rw [shoot_small _ x y (by simpa [Battlefield.init] using hxy)]
      simp
    · rw [shoot_fresh_oob len ships x y (by omega)]
      simp

/-- Witness for C7 at a concrete battlefield and coordinates. -/
theorem shoot_fresh_spec_witness :
    (Battlefield.init 10 []).shoot 1 2 = none ∧
    (Battlefield.init 10 []).shoot 1 1 = some false :=
  ⟨(shoot_fresh_spec 10 [] 1 2).2.2.1 (by decide),
   (shoot_fresh_spec 10 [] 1 1).2.1 (by decide)⟩

/-- Claim C1: evaluation of `shoot` on a fresh battlefield of side 10 at the
failing inputs. Against the spec's intended contract — accept an in-grid
coordinate whose recorded state allows shooting — the code returns `False` for
(0, 0) without consulting the grid, and raises `IndexError` (`none`) for the
in-grid coordinates (1, 2) and (3, 3); it validates nothing against a
length-by-length enemy-tracking grid, because no such grid exists. -/
theorem shoot_contradicts_intent :
    (Battlefield.init 10 []).shoot 0 0 = some false ∧
    (Battlefield.init 10 []).shoot 1 2 = none ∧
    (Battlefield.init 10 []).shoot 3 3 = none := by
  decide

/-- Claim C5: evaluation of the constructor at `length = 10`. Both grids are
the two-element list `[[10], [10]]` — not a 10 by 10 matrix — and the single
cell of each row holds 10, which is none of the three recorded states
0 (hidden), 1 (hit), 2 (miss). -/
theorem battlefield_grids_not_square :
    (Battlefield.init 10 [])._enemy_battlefield = [[10], [10]] ∧
    (Battlefield.init 10 [])._my_battlefield = [[10], [10]] ∧
    (Battlefield.init 10 [])._enemy_battlefield.length = 2 ∧
    (∀ row ∈ (Battlefield.init 10 [])._enemy_battlefield,
      row.length = 1 ∧ ∀ v ∈ row, v ≠ 0 ∧ v ≠ 1 ∧ v ≠ 2) := by
  decide

/-- The ship-list traversal of `Battlefield.move` leaves the list untouched and
yields `none` when no ship carries the requested identifier. -/
theorem moveShips_missing (len i : Nat) (d : Direction) (l : List Ship)
    (h : ∀ s ∈ l, s._ship_id ≠ i) : moveShips len i d l = (none, l) := by
  induction l with
  | nil => rfl
  | cons s rest ih =>
    have hs : ¬s._ship_id = i := h s (by simp)
    simp [moveShips, hs, ih fun t ht => h t (by simp [ht])]

/-- Claim C6 (amended): when no owned ship has the requested identifier,
`Battlefield.move` falls off the end of its loop, so it returns Python `None`
(`none`) — not the boolean `False` — and mutates nothing. -/
theorem battlefield_move_missing_id (b : Battlefield) (len i : Nat) (d : Direction)
    (h : ∀ s ∈ b._ships, s._ship_id ≠ i) :
    b.move len i d = (none, b) := by
  simp [Battlefield.move, moveShips_missing len i d b._ships h]

/-- Witness for the amended C6 at a concrete battlefield and identifier. -/
theorem battlefield_move_missing_id_witness :
    (Battlefield.init 10 [Battleship 1 0 0]).move 10 2 Direction.up =
      (none, Battlefield.init 10 [Battleship 1 0 0]) :=
  battlefield_move_missing_id (Battlefield.init 10 [Battleship 1 0 0]) 10 2 Direction.up
    (by decide)

/-- Counterexample to C6 as stated: with no ship of identifier 1, `move`
returns `none` (Python `None`), which is not the boolean result `false` the
claim asserts. -/
theorem battlefield_move_missing_id_counterexample :
    ((Battlefield.init 10 []).move 10 1 Direction.up).1 = none ∧
    ¬((Battlefield.init 10 []).move 10 1 Direction.up).1 = some false := by
  decide

/-- Counterexample to C9 as stated: on the server side a non-coroutine message
callback does raise `TypeError`, but only at position 3 of the accept
sequence, after the receive task is created (position 0) and the registry
entry is inserted (position 1) — not before connection work begins. -/
theorem server_typecheck_counterexample :
    serverAcceptEvents false =
      [.taskCreated, .registryInserted, .connectedCallback, .typeErrorRaised] ∧
    (serverAcceptEvents false).indexOf NetEvent.taskCreated = 0 ∧
    (serverAcceptEvents false).indexOf NetEvent.registryInserted = 1 ∧
    (serverAcceptEvents false).indexOf NetEvent.typeErrorRaised = 3 := by
  decide

/-- Claim C9 (amended): a non-coroutine message callback raises `TypeError` at
registration time on both sides; on the client side this happens in the
constructor before any connection work, while on the server side it happens
only after the receive task is created and the registry entry inserted, though
before any done callback is registered. -/
theorem typecheck_registration :
    clientInitEvents false = ([.typeErrorRaised], false) ∧
    clientInitEvents true = ([], true) ∧
    NetEvent.taskCreated ∉ (clientInitEvents false).1 ∧
    serverAcceptEvents false =
      [.taskCreated, .registryInserted, .connectedCallback, .typeErrorRaised] ∧
    NetEvent.doneCallbackAdded ∉ serverAcceptEvents false ∧
    serverAcceptEvents true =
      [.taskCreated, .registryInserted, .connectedCallback, .doneCallbackAdded] := by
  decide

/-- Counterexample to C10 as stated: a server connection whose registration
raised `TypeError` (non-coroutine message callback) never has a done callback
attached, so its lifecycle produces zero disconnect notifications and its
registry entry is never removed — not exactly one of each. -/
theorem disconnect_counterexample :
    (serverLifecycle false TermCause.peerClosed).count NetEvent.disconnectCallback = 0 ∧
    (serverLifecycle false TermCause.peerClosed).count NetEvent.registryRemoved = 0 := by
  decide

/-- `strikeAtPosition` reports a hit exactly on the ship's occupied cells. -/
theorem strikeAtPosition_fst (s : Ship) (x y : Int) :
    (s.strikeAtPosition x y).1 = s.occupies x y := by
  unfold Ship.strikeAtPosition
  split <;> simp_all

/-- A strike outside the ship's footprint leaves the ship untouched. -/
theorem strikeAtPosition_miss (s : Ship) (x y : Int) (h : s.occupies x y = false) :
    s.strikeAtPosition x y = (false, s) := by
  simp [Ship.strikeAtPosition, h]

/-- A strike changes nothing about the ship except possibly recording the
struck cell: every other field is preserved and membership in the damage list
is unchanged at every other cell. -/
theorem strikeAtPosition_damage_only (s : Ship) (x y : Int) :
    (s.strikeAtPosition x y).2._ship_id = s._ship_id ∧
    (s.strikeAtPosition x y).2._ship_type = s._ship_type ∧
    (s.strikeAtPosition x y).2._x_pos = s._x_pos ∧
    (s.strikeAtPosition x y).2._y_pos = s._y_pos ∧
    (s.strikeAtPosition x y).2._x_length = s._x_length ∧
    (s.strikeAtPosition x y).2._y_length = s._y_length ∧
    ∀ c : Int × Int, c ≠ (x, y) →
      (c ∈ (s.strikeAtPosition x y).2.damage ↔ c ∈ s.damage) := by
  unfold Ship.strikeAtPosition
  split
  · refine ⟨rfl, rfl, rfl, rfl, rfl, rfl, fun c hc => ?_⟩
    split
    · exact Iff.rfl
    · simp [List.mem_cons, hc]
  · exact ⟨rfl, rfl, rfl, rfl, rfl, rfl, fun c _ => Iff.rfl⟩

/-- The strike traversal reports a hit exactly when some ship in the list
occupies the struck cell. -/
theorem strikeShips_fst (x y : Int) (l : List Ship) :
    (strikeShips x y l).1 = l.any fun s => s.occupies x y := by
  induction l with
  | nil => rfl
  | cons s rest ih =>
    by_cases hs : s.occupies x y = true
    · simp [strikeShips, strikeAtPosition_fst, hs]
    · have hs' : s.occupies x y = false := by simpa using hs
      simp [strikeShips, strikeAtPosition_fst, hs', ih]

/-- When no ship in the list occupies the cell, the traversal returns false
with the list unchanged. -/
theorem strikeShips_none (x y : Int) (l : List Ship) (h : ∀ s ∈ l, s.occupies x y = false) :
    strikeShips x y l = (false, l) := by
  induction l with
  | nil => rfl
  | cons s rest ih =>
    have hs := h s (by simp)
    simp [strikeShips, strikeAtPosition_fst, hs, ih fun t ht => h t (by simp [ht])]

/-- When the traversal reports a hit, the list splits at the first occupying
ship: everything before it misses and is unchanged, the occupying ship is
replaced by its struck version, and everything after it is unchanged. -/
theorem strikeShips_decomp (x y : Int) (l : List Ship) (h : (strikeShips x y l).1 = true) :
    ∃ l1 s l2, l = l1 ++ s :: l2 ∧ (∀ t ∈ l1, t.occupies x y = false) ∧
      s.occupies x y = true ∧
      (strikeShips x y l).2 = l1 ++ (s.strikeAtPosition x y).2 :: l2 := by
  induction l with
  | nil => simp [strikeShips] at h
  | cons s rest ih =>
    by_cases hs : s.occupies x y = true
    · exact ⟨[], s, rest, by simp, by simp, hs,
        by simp [strikeShips, strikeAtPosition_fst, hs]⟩
    · have hs' : s.occupies x y = false := by simpa using hs
      have hfst : (strikeShips x y (s :: rest)).1 = (strikeShips x y rest).1 := by
        simp [strikeShips, strikeAtPosition_fst, hs']
      obtain ⟨l1, u, l2, hl, hmiss, hu, hsnd⟩ := ih (by rw [← hfst]; exact h)
      refine ⟨s :: l1, u, l2, by simp [hl], ?_, hu, ?_⟩
      · intro t ht
        rcases List.mem_cons.mp ht with rfl | ht
        · exact hs'
        · exact hmiss t ht
      · simp [strikeShips, strikeAtPosition_fst, hs', hsnd]

/-- Claim C2: `Battlefield.strike(x, y)` returns true exactly when some owned
ship occupies `(x, y)`; when no ship occupies the cell it returns false and
changes nothing; and when `s` is the (unique) occupying ship, the result keeps
every other ship and every grid intact and replaces only `s` by its struck
version, which differs from `s` at most in the damage record of that one
cell. -/
theorem strike_spec (b : Battlefield) (x y : Int) :
    ((b.strike x y).1 = true ↔ ∃ s ∈ b._ships, s.occupies x y = true) ∧
    ((∀ s ∈ b._ships, s.occupies x y = false) → b.strike x y = (false, b)) ∧
    (∀ s ∈ b._ships, s.occupies x y = true →
      (∀ t ∈ b._ships, t.occupies x y = true → t = s) →
      (b.strike x y).1 = true ∧
      ∃ l1 l2, b._ships = l1 ++ s :: l2 ∧ (∀ t ∈ l1, t.occupies x y = false) ∧
        (b.strike x y).2 = { b with _ships := l1 ++ (s.strikeAtPosition x y).2 :: l2 } ∧
        ((s.strikeAtPosition x y).2._ship_id = s._ship_id ∧
         (s.strikeAtPosition x y).2._ship_type = s._ship_type ∧
         (s.strikeAtPosition x y).2._x_pos = s._x_pos ∧
         (s.strikeAtPosition x y).2._y_pos = s._y_pos ∧
         (s.strikeAtPosition x y).2._x_length = s._x_length ∧
         (s.strikeAtPosition x y).2._y_length = s._y_length ∧
         ∀ c : Int × Int, c ≠ (x, y) →
           (c ∈ (s.strikeAtPosition x y).2.damage ↔ c ∈ s.damage))) := by
  refine ⟨?_, ?_, ?_⟩
  · show (strikeShips x y b._ships).1 = true ↔ _
    rw [strikeShips_fst]
    simp [List.any_eq_true]
  · intro h
    show ((strikeShips x y b._ships).1, _) = (false, b)
    rw [strikeShips_none x y b._ships h]
  · intro s hs hocc huniq
    have hfst : (strikeShips x y b._ships).1 = true := by
      rw [strikeShips_fst]
      exact List.any_eq_true.mpr ⟨s, hs, hocc⟩
    obtain ⟨l1, u, l2, hl, hmiss, hu, hsnd⟩ := strikeShips_decomp x y b._ships hfst
    have hus : u = s := huniq u (by rw [hl]; simp) hu
    subst hus
    refine ⟨hfst, l1, l2, hl, hmiss, ?_, strikeAtPosition_damage_only u x y⟩
    show ({ b with _ships := (strikeShips x y b._ships).2 } : Battlefield) = _
    rw [hsnd]

/-- Witness for C2: a fresh 10-battlefield with one Battleship at the origin;
striking (0, 0) hits it. -/
theorem strike_spec_witness :
    ((Battlefield.init 10 [Battleship 1 0 0]).strike 0 0).1 = true :=
  ((strike_spec (Battlefield.init 10 [Battleship 1 0 0]) 0 0).2.2 (Battleship 1 0 0)
    (by decide) (by decide) (by decide)).1

/-- For a ship with a nonempty footprint, the whole-footprint bounds check is
equivalent to every occupied cell lying inside the square field. -/
theorem inBounds_iff (t : Ship) (len : Nat) (hx : 0 < t._x_length) (hy : 0 < t._y_length) :
    t.inBounds len = true ↔
      ∀ cx cy : Int, t.occupies cx cy = true →
        0 ≤ cx ∧ cx < (len : Int) ∧ 0 ≤ cy ∧ cy < (len : Int) := by
  unfold Ship.inBounds Ship.occupies
  simp only [Bool.and_eq_true, decide_eq_true_eq]
  constructor
  · rintro ⟨⟨⟨h1, h2⟩, h3⟩, h4⟩ cx cy ⟨⟨⟨o1, o2⟩, o3⟩, o4⟩
    omega
  · intro h
    have h1 := h t._x_pos t._y_pos ⟨⟨⟨le_refl _, by omega⟩, le_refl _⟩, by omega⟩
    have h2 := h (t._x_pos + t._x_length - 1) t._y_pos
      ⟨⟨⟨by omega, by omega⟩, le_refl _⟩, by omega⟩
    have h3 := h t._x_pos (t._y_pos + t._y_length - 1)
      ⟨⟨⟨le_refl _, by omega⟩, by omega⟩, by omega⟩
    omega

/-- Claim C3: for a ship with a nonempty footprint, `move(d)` returns true
exactly when every cell of the one-cell-translated footprint lies within the
battlefield bounds; on success the committed position is the translation by
exactly one cell, and on failure the ship is unchanged. -/
theorem move_spec (s : Ship) (len : Nat) (d : Direction)
    (hx : 0 < s._x_length) (hy : 0 < s._y_length) :
    ((s.move len d).1 = true ↔
      ∀ cx cy : Int, (s.translate d).occupies cx cy = true →
        0 ≤ cx ∧ cx < (len : Int) ∧ 0 ≤ cy ∧ cy < (len : Int)) ∧
    ((s.move len d).1 = true → (s.move len d).2 = s.translate d) ∧
    ((s.move len d).1 = false → (s.move len d).2 = s) ∧
    ((s.translate d)._x_pos - s._x_pos).natAbs +
      ((s.translate d)._y_pos - s._y_pos).natAbs = 1 := by
  have ht := inBounds_iff (s.translate d) len hx hy
  unfold Ship.move
  by_cases hb : (s.translate d).inBounds len = true
  · rw [if_pos hb]
    exact ⟨by simpa using ht.mp hb, fun _ => rfl, by simp,
      by cases d <;> simp [Ship.translate, Direction.delta]⟩
  · rw [if_neg hb]
    refine ⟨?_, by simp, fun _ => rfl,
      by cases d <;> simp [Ship.translate, Direction.delta]⟩
    simp only [Bool.false_eq_true, false_iff]
    intro hcells
    exact hb (ht.mpr hcells)

/-- Witness for C3: the Battleship at the origin of a 10-field moves right. -/
theorem move_spec_witness :
    ((Battleship 1 0 0).move 10 Direction.right).1 = true ∧
    ((Battleship 1 0 0).move 10 Direction.right).2 =
      (Battleship 1 0 0).translate Direction.right :=
  ⟨by decide,
   (move_spec (Battleship 1 0 0) 10 Direction.right (by decide) (by decide)).2.1 (by decide)⟩

/-- Decoding undoes encoding for a list of character codepoints. -/
theorem map_ofNat_map_toNat (l : List Char) : (l.map Char.toNat).map Char.ofNat = l := by
  induction l <;> simp_all

/-- The length-prefixed string codec consumes exactly its own encoding and
returns the original string with the untouched remainder. -/
theorem decodeString_encodeString (s : String) (rest : List Nat) :
    decodeString (encodeString s ++ rest) = some (s, rest) := by
  show decodeString (s.length :: (s.toList.map Char.toNat ++ rest)) = some (s, rest)
  have hlen : (s.toList.map Char.toNat).length = s.length := by
    rw [List.length_map]
    cases s
    rfl
  have hle : s.length ≤ (s.toList.map Char.toNat ++ rest).length := by
    rw [List.length_append, hlen]
    exact Nat.le_add_right _ _
  simp only [decodeString]
  rw [if_pos hle]
  rw [List.take_left' hlen, List.drop_left' hlen, map_ofNat_map_toNat]
  rfl

/-- The message decoder consumes exactly one encoded message from the front of
the stream, recovering the message and leaving the remainder untouched. -/
theorem decodeMessage_encode (m : ProtocolMessage) (rest : List Nat) :
    decodeMessage (m.encode ++ rest) = some (m, rest) := by
  cases m with
  | login u =>
    show decodeMessage (0 :: (encodeString u ++ rest)) = _
    simp [decodeMessage, decodeString_encodeString]
  | shot x y => rfl
  | shotResult hit => cases hit <;> rfl
  | placeShip i x y o => cases o <;> rfl

/-- Claim C4: the codec round-trips — decoding the bytes produced by encoding
any representable message yields that same message (with any trailing stream
left intact, so the encoding is also self-delimiting). -/
theorem decode_encode_roundtrip (m : ProtocolMessage) (rest : List Nat) :
    decodeMessage (m.encode ++ rest) = some (m, rest) ∧
    decodeMessage m.encode = some (m, []) :=
  ⟨decodeMessage_encode m rest, by simpa using decodeMessage_encode m []⟩

/-- Every id the counter will ever hand out is at least its current value. -/
theorem assignedIds_le (c n : Nat) : ∀ m ∈ assignedIds c n, c ≤ m := by
  induction n generalizing c with
  | zero => simp [assignedIds]
  | succ n ih =>
    intro m hm
    rw [show assignedIds c (n + 1) = c :: assignedIds (c + 1) n from rfl] at hm
    rcases List.mem_cons.mp hm with rfl | hm
    · exact le_refl m
    · have := ih (c + 1) m hm
      omega

/-- The ids assigned to successive connections are strictly increasing in
order of acceptance. -/
theorem assignedIds_pairwise (c n : Nat) : List.Pairwise (· < ·) (assignedIds c n) := by
  induction n generalizing c with
  | zero => exact List.Pairwise.nil
  | succ n ih =>
    rw [show assignedIds c (n + 1) = c :: assignedIds (c + 1) n from rfl]
    refine List.Pairwise.cons (fun m hm => ?_) (ih (c + 1))
    have := assignedIds_le (c + 1) n m hm
    omega

/-- Claim C8: starting from the source's initial counter value 1, the ids
assigned to any number of accepted connections are strictly increasing — each
new connection's id exceeds every previously assigned one — and therefore the
ids of any instant's currently-open connections (a subsequence of all assigned
ids, since disconnects only remove entries) are pairwise distinct. -/
theorem client_ids_unique (n : Nat) :
    List.Pairwise (· < ·) (assignedIds 1 n) ∧
    ∀ open_ids : List Nat, open_ids.Sublist (assignedIds 1 n) →
      List.Pairwise (· ≠ ·) open_ids := by
  refine ⟨assignedIds_pairwise 1 n, fun l hl => ?_⟩
  exact ((assignedIds_pairwise 1 n).sublist hl).imp Nat.ne_of_lt

/-- Witness for C8: after three accepts the assigned ids are [1, 2, 3]; the
open subset [1, 3] left by a disconnect is pairwise distinct. -/
theorem client_ids_unique_witness :
    List.Pairwise (· ≠ ·) [1, 3] :=
  (client_ids_unique 3).2 [1, 3] (by decide)

/-- Claim C10 (amended): for every connection whose callback registration
completes, the lifecycle produces exactly one disconnect notification — and,
server-side, exactly one registry-entry removal — whether the receive loop
ended because the peer closed, the close was local, or decoding failed. -/
theorem disconnect_exactly_once (cause : TermCause) :
    (serverLifecycle true cause).count NetEvent.disconnectCallback = 1 ∧
    (serverLifecycle true cause).count NetEvent.registryRemoved = 1 ∧
    (clientLifecycle cause).count NetEvent.disconnectCallback = 1 := by
  cases cause <;> decide
